import Mathlib

/-!
Shallow embedding of the bigquery-helper repository
(src/src/bigquery_helper/helper.py).

The verified core is the schema-conformance pipeline of
BigQueryHelper: the methods named here exactly as in the source are
the private helpers underscore-prefixed in Python:

  * cast_column (Python BigQueryHelper._cast_column, lines 139-159):
    dispatch on the BigQuery type tag and cast a pandas Series.
  * prepare_dataframe (Python BigQueryHelper._prepare_dataframe,
    lines 121-137): restrict a DataFrame to the schema columns and
    cast each retained column. This is the operation the design
    document calls conform(table, schema).
  * get_credentials (Python BigQueryHelper._get_credentials,
    lines 39-54): runtime-type dispatch on the credentials argument.

A DataFrame is embedded as an ordered list of named columns, each an
ordered list of cell values. The pandas primitives the source calls
(pd.to_numeric with errors="coerce", Series.astype for the "Int64",
float, str and bool targets, pd.to_datetime with errors="coerce") are
embedded per value, following the documented pandas semantics:

  * pd.to_numeric(column, errors="coerce") parses each value as a
    number; values that fail to parse become NaN.
  * Series.astype("Int64") produces the nullable 64-bit integer
    extension dtype: NaN becomes the missing marker NA, numeric
    values are cast when the cast is value-preserving and in the
    signed 64-bit range, and a non-integral or out-of-range value
    raises (pandas: TypeError, "cannot safely cast non-equivalent
    float64 to int64").  This raise is the one fallible step of the
    pipeline, so the embedded casts return Except.
  * Series.astype(float) on a numeric column is total (NaN allowed).
  * Series.astype(str) applies the Python str() rendering per value;
    it is total (None renders as "None", NaN as "nan", NaT as "NaT").
  * Series.astype(bool) applies Python truthiness per value: None is
    falsy, NaN is truthy, a string is truthy iff non-empty, a number
    is truthy iff nonzero.
  * pd.to_datetime(column, errors="coerce") parses each value as a
    timestamp; failures become the missing marker NaT.

Floating-point cell values are modelled exactly as rationals: no
claim below depends on rounding, only on parse success or failure and
on integrality. The numeric-string grammar covers the usual
sign/decimal/exponent forms; the special literals inf and nan are
treated as non-numeric (a deliberate simplification outside the
rational model, not touched by any claim). The timestamp grammar is
the ISO date fragment YYYY-MM-DD, standing in for the much larger
pandas date parser; only parse success or failure and stability under
reparsing matter to the claims.
-/

set_option autoImplicit false

namespace BigQueryHelper

/-- Cell values of an embedded DataFrame column. vNone models Python
None, vNaN the float NaN missing marker (also used for the Int64
missing marker NA), vNaT the missing timestamp marker; vTime models a
parsed pandas Timestamp by its tick count. -/
inductive Value where
  | vNone
  | vNaN
  | vNaT
  | vInt (n : Int)
  | vFloat (q : Rat)
  | vStr (s : String)
  | vBool (b : Bool)
  | vTime (t : Int)
deriving DecidableEq, Repr

/-- Null/missing markers of pandas (anything pandas isna reports). -/
def isNull : Value → Bool
  | .vNone => true
  | .vNaN => true
  | .vNaT => true
  | _ => false

/-- Numeric value of a list of decimal digit characters. -/
def digitsToNat (l : List Char) : Nat :=
  l.foldl (fun a c => a * 10 + (c.toNat - 48)) 0

/-- Every character of the list is a decimal digit. -/
def isDigits (l : List Char) : Bool :=
  l.all (fun c => c.isDigit)

/-- Strip an optional leading sign; the Bool is true when the value is
non-negative. -/
def stripSign : List Char → Bool × List Char
  | '+' :: cs => (true, cs)
  | '-' :: cs => (false, cs)
  | cs => (true, cs)

/-- Split a character list at the first character satisfying p,
dropping that character; none when p never holds. -/
def splitOnFirst (p : Char → Bool) : List Char → List Char × Option (List Char)
  | [] => ([], none)
  | c :: cs =>
    if p c then ([], some cs)
    else
      let r := splitOnFirst p cs
      (c :: r.1, r.2)

/-- Unsigned numeric literal: digits with an optional decimal point
and an optional signed exponent; at least one mantissa digit. -/
def parseUnsigned (cs : List Char) : Option Rat :=
  let mant := splitOnFirst (fun c => c = 'e' ∨ c = 'E') cs
  let ip := splitOnFirst (fun c => c = '.') mant.1
  let fp := ip.2.getD []
  if ip.1.length + fp.length = 0 then none
  else if ¬ (isDigits ip.1 ∧ isDigits fp) then none
  else
    let m := digitsToNat (ip.1 ++ fp)
    let k := fp.length
    match mant.2 with
    | none => some (mkRat (Int.ofNat m) (10 ^ k))
    | some ecs =>
      let es := stripSign ecs
      if es.2.isEmpty ∨ ¬ isDigits es.2 then none
      else
        let e := digitsToNat es.2
        some (if es.1 then mkRat (Int.ofNat (m * 10 ^ e)) (10 ^ k)
          else mkRat (Int.ofNat m) (10 ^ (k + e)))

/-- Numeric-string grammar of the per-value parse behind
pd.to_numeric: optional sign, then an unsigned decimal literal. -/
def parseNumeric (s : String) : Option Rat :=
  let sg := stripSign s.data
  if sg.2.isEmpty then none
  else (parseUnsigned sg.2).map (fun q => if sg.1 then q else -q)

/-- Per-value model of pd.to_numeric(column, errors="coerce"): null
markers coerce to NaN, numbers pass through, booleans become 0 or 1,
strings are parsed (an integral parse yields an integer, as the
pandas parser does), unparseable values coerce to NaN. Timestamp
values are not numerically convertible and coerce to NaN. -/
def to_numeric : Value → Value
  | .vNone => .vNaN
  | .vNaN => .vNaN
  | .vNaT => .vNaN
  | .vInt n => .vInt n
  | .vFloat q => .vFloat q
  | .vBool b => .vInt (if b then 1 else 0)
  | .vStr s =>
    match parseNumeric s with
    | some q => if q.den = 1 then .vInt q.num else .vFloat q
    | none => .vNaN
  | .vTime _ => .vNaN

/-- Smallest signed 64-bit integer. -/
def int64Min : Int := -(2 ^ 63)

/-- Largest signed 64-bit integer. -/
def int64Max : Int := 2 ^ 63 - 1

/-- Per-value model of Series.astype("Int64"), the nullable 64-bit
integer extension dtype: missing markers become NA (rendered vNone),
in-range integral numbers are cast, and a non-integral or
out-of-range number raises, as pandas does for a float64 value that
cannot be cast losslessly (TypeError: cannot safely cast
non-equivalent float64 to int64). Strings and timestamps are not
castable to Int64 either, though they cannot reach this point in the
pipeline because to_numeric runs first. -/
def astypeInt64 : Value → Except String Value
  | .vNone => .ok .vNone
  | .vNaN => .ok .vNone
  | .vInt n =>
    if int64Min ≤ n ∧ n ≤ int64Max then .ok (.vInt n)
    else .error "cannot safely cast non-equivalent to int64"
  | .vFloat q =>
    if q.den = 1 ∧ int64Min ≤ q.num ∧ q.num ≤ int64Max then .ok (.vInt q.num)
    else .error "cannot safely cast non-equivalent float64 to int64"
  | .vBool b => .ok (.vInt (if b then 1 else 0))
  | .vNaT => .error "cannot convert NaT to Int64"
  | .vStr _ => .error "cannot convert string to Int64"
  | .vTime _ => .error "cannot convert timestamp to Int64"

/-- Per-value model of Series.astype(float) on the numeric column
produced by to_numeric: integers widen to floats, None becomes NaN,
everything else passes through. Total: no failure path. -/
def astypeFloat : Value → Value
  | .vInt n => .vFloat (n : Rat)
  | .vNone => .vNaN
  | v => v

/-- Textual rendering of an embedded float value, standing in for the
Python repr of a float; no claim inspects the rendered text, only
that a string is produced. -/
def floatRepr (q : Rat) : String :=
  if q.den = 1 then toString q.num ++ ".0" else toString q

/-- Per-value model of Series.astype(str): the Python str() rendering
of each cell. Total, and every output is a string: None renders as
"None", NaN as "nan", NaT as "NaT". -/
def astypeStr : Value → Value
  | .vNone => .vStr "None"
  | .vNaN => .vStr "nan"
  | .vNaT => .vStr "NaT"
  | .vInt n => .vStr (toString n)
  | .vFloat q => .vStr (floatRepr q)
  | .vStr s => .vStr s
  | .vBool b => .vStr (if b then "True" else "False")
  | .vTime t => .vStr ("Timestamp " ++ toString t)

/-- Python truthiness, as applied per value by Series.astype(bool) on
an object column: None is falsy; NaN and NaT are truthy; a number is
truthy iff nonzero; a string is truthy iff non-empty; a timestamp
object is truthy. -/
def truthy : Value → Bool
  | .vNone => false
  | .vNaN => true
  | .vNaT => true
  | .vInt n => decide (n ≠ 0)
  | .vFloat q => decide (q ≠ 0)
  | .vStr s => decide (s ≠ "")
  | .vBool b => b
  | .vTime _ => true

/-- Date grammar of the embedded timestamp parser: the ISO fragment
YYYY-MM-DD with plausibility bounds on month and day, encoding the
instant abstractly as a tick count. Stands in for the pandas date
parser; only parse success or failure matters to the claims. -/
def parseDate (s : String) : Option Int :=
  match s.data with
  | [y1, y2, y3, y4, '-', m1, m2, '-', d1, d2] =>
    if isDigits [y1, y2, y3, y4, m1, m2, d1, d2] then
      let y := digitsToNat [y1, y2, y3, y4]
      let m := digitsToNat [m1, m2]
      let d := digitsToNat [d1, d2]
      if 1 ≤ m ∧ m ≤ 12 ∧ 1 ≤ d ∧ d ≤ 31 then
        some (((y * 12 + m) * 31 + d : Nat) : Int)
      else none
    else none
  | _ => none

/-- Per-value model of pd.to_datetime(column, errors="coerce"): null
markers become NaT, timestamps pass through, integers and floats are
read as epoch ticks, strings are parsed with failures coerced to NaT,
and booleans (which pandas rejects with a TypeError that coerce turns
into NaT) become NaT. Total: no failure path. -/
def to_datetime : Value → Value
  | .vNone => .vNaT
  | .vNaN => .vNaT
  | .vNaT => .vNaT
  | .vInt n => .vTime n
  | .vFloat q => .vTime (Rat.floor q)
  | .vStr s =>
    match parseDate s with
    | some t => .vTime t
    | none => .vNaT
  | .vBool _ => .vNaT
  | .vTime t => .vTime t

/-- Elementwise model of the vectorized
pd.to_numeric(column, errors="coerce").astype("Int64") of the INTEGER
branch: the one cast with a failure path, so the column cast is
fallible. The first failing cell determines the error surfaced, as a
raising vectorized operation surfaces one error. -/
def castInts : List Value → Except String (List Value)
  | [] => .ok []
  | v :: vs =>
    match astypeInt64 (to_numeric v), castInts vs with
    | .ok w, .ok ws => .ok (w :: ws)
    | .error e, _ => .error e
    | .ok _, .error e => .error e

/-- Embedding of BigQueryHelper._cast_column (helper.py lines
139-159): dispatch on the BigQuery type tag string. INTEGER is
to_numeric then astype("Int64"); FLOAT is to_numeric then
astype(float); STRING is astype(str); BOOLEAN is astype(bool), i.e.
per-value truthiness; TIMESTAMP is to_datetime with coercion; every
other tag returns the column unchanged. -/
def cast_column (column : List Value) (column_type : String) : Except String (List Value) :=
  if column_type = "INTEGER" then castInts column
  else if column_type = "FLOAT" then .ok (column.map (fun v => astypeFloat (to_numeric v)))
  else if column_type = "STRING" then .ok (column.map astypeStr)
  else if column_type = "BOOLEAN" then .ok (column.map (fun v => Value.vBool (truthy v)))
  else if column_type = "TIMESTAMP" then .ok (column.map to_datetime)
  else .ok column

/-- A schema field as the source reads it: a mapping with the keys
"name" and "type" (and optionally "mode", which the conformance code
never reads). -/
structure SchemaField where
  name : String
  type : String
  mode : Option String := none
deriving DecidableEq, Repr

/-- Embedding of the dict comprehension
schema_dict = (field["name"]: field["type"] for field in schema) of
helper.py line 129: the resulting lookup maps a name to the type of
its last occurrence in the schema, the last-write-wins semantics of
a Python dict build. -/
def schemaLookup : List SchemaField → String → Option String
  | [], _ => none
  | f :: rest, n =>
    match schemaLookup rest n with
    | some t => some t
    | none => if f.name = n then some f.type else none

/-- An embedded DataFrame: an ordered list of named columns, each an
ordered list of cell values. -/
abbrev DataFrame := List (String × List Value)

/-- Treatment of one retained column by the cast loop of
_prepare_dataframe (helper.py lines 133-135): a column whose name the
schema mentions is cast with its schema type; the none branch is
unreachable after restriction and passes the column through. -/
def conformColumn (schema : List SchemaField) (c : String × List Value) :
    Except String (String × List Value) :=
  match schemaLookup schema c.1 with
  | some t => (cast_column c.2 t).map (fun vs => (c.1, vs))
  | none => .ok c

/-- Cast pass of _prepare_dataframe (helper.py lines 133-135) over
the already-restricted column list: each retained column is cast with
its schema type. The Python loop iterates over schema_dict and
assigns each present column once; since each cast touches only its
own column, iterating over the columns instead (as here) produces
the same DataFrame, with columns kept in DataFrame order exactly as
the Python column assignment does. -/
def conformColumns (schema : List SchemaField) : DataFrame → Except String DataFrame
  | [] => .ok []
  | c :: rest =>
    match conformColumn schema c, conformColumns schema rest with
    | .ok c2, .ok rest2 => .ok (c2 :: rest2)
    | .error e, _ => .error e
    | .ok _, .error e => .error e

/-- Embedding of BigQueryHelper._prepare_dataframe (helper.py lines
121-137), the conform(table, schema) operation of the design
document: restrict the DataFrame to the columns named by the schema,
preserving the DataFrame column order (line 130-131), then cast each
retained column to its schema type (lines 133-135). An uncaught
pandas exception from a cast propagates, hence the Except result. -/
def prepare_dataframe (df : DataFrame) (schema : List SchemaField) : Except String DataFrame :=
  conformColumns schema (df.filter (fun c => (schemaLookup schema c.1).isSome))

/-- An opaque resolved credential object, as produced by the two
service_account.Credentials constructors the source invokes. -/
inductive Credentials where
  | from_service_account_file (path : String) (scopes : List String)
  | from_service_account_info (info : List (String × String)) (scopes : List String)
deriving DecidableEq, Repr

/-- The runtime shapes the credentials argument of the source can
take: a str, a dict, an already-resolved Credentials object, or a
value of any other runtime type (tagged by its type name). -/
inductive CredInput where
  | str (s : String)
  | dict (d : List (String × String))
  | credsObj (c : Credentials)
  | otherObj (typeName : String)
deriving DecidableEq, Repr

/-- The scopes list passed to both Credentials constructors. -/
def bigqueryScopes : List String := ["https://www.googleapis.com/auth/bigquery"]

/-- Embedding of BigQueryHelper._get_credentials (helper.py lines
39-54): isinstance dispatch on the runtime shape; a str resolves as a
service-account file path, a dict as inline service-account info, a
Credentials object is returned unchanged, and anything else raises
ValueError. -/
def get_credentials : CredInput → Except String Credentials
  | .str s => .ok (.from_service_account_file s bigqueryScopes)
  | .dict d => .ok (.from_service_account_info d bigqueryScopes)
  | .credsObj c => .ok c
  | .otherObj _ =>
    .error "Invalid credentials type. Must be a file path, dict, or Credentials object."

/-- Worked example of the design document, section 8: input table
with columns id, name, extra. -/
def dfEx : DataFrame :=
  [("id", [Value.vStr "1", Value.vStr "x", Value.vStr "3"]),
   ("name", [Value.vInt 1, Value.vInt 2, Value.vInt 3]),
   ("extra", [Value.vStr "a", Value.vStr "b", Value.vStr "c"])]

/-- Worked example of the design document, section 8: the schema. -/
def schemaEx : List SchemaField :=
  [⟨"id", "INTEGER", none⟩, ⟨"name", "STRING", none⟩]

/-- Worked example of the design document, section 8: the expected
conformed table. -/
def outEx : DataFrame :=
  [("id", [Value.vInt 1, Value.vNone, Value.vInt 3]),
   ("name", [Value.vStr "1", Value.vStr "2", Value.vStr "3"])]

/-- Example with only re-application-stable field types, for the
idempotence claim. -/
def schemaStable : List SchemaField :=
  [⟨"name", "STRING", none⟩, ⟨"ts", "TIMESTAMP", none⟩, ⟨"flag", "BOOLEAN", none⟩]

/-- Example table for the idempotence claim, holding raw values of
varied shapes. -/
def dfStable : DataFrame :=
  [("name", [Value.vInt 1, Value.vNone]),
   ("ts", [Value.vStr "2021-01-02", Value.vStr "zz"]),
   ("flag", [Value.vStr "False", Value.vStr ""])]

/-! Supporting lemmas. -/

/-- The schema lookup succeeds exactly on the schema field names. -/
theorem schemaLookup_isSome (schema : List SchemaField) (n : String) :
    (schemaLookup schema n).isSome = true ↔ n ∈ schema.map SchemaField.name := by
  induction schema with
  | nil => simp [schemaLookup]
  | cons f rest ih =>
    simp only [schemaLookup, List.map_cons, List.mem_cons]
    cases h : schemaLookup rest n with
    | some t =>
      have hmem : n ∈ rest.map SchemaField.name := ih.mp (by rw [h]; rfl)
      simp [hmem]
    | none =>
      have hnot : ¬ n ∈ rest.map SchemaField.name := fun hm => by
        have h2 := ih.mpr hm
        rw [h] at h2
        cases h2
      by_cases hf : f.name = n
      · simp [hf]
      · rw [if_neg hf]
        constructor
        · intro hfalse; cases hfalse
        · rintro (h1 | h2)
          · exact (hf h1.symm).elim
          · exact (hnot h2).elim

/-- Boolean form of schemaLookup_isSome, for rewriting filters. -/
theorem schemaLookup_isSome_eq (schema : List SchemaField) (n : String) :
    (schemaLookup schema n).isSome = decide (n ∈ schema.map SchemaField.name) := by
  by_cases hm : n ∈ schema.map SchemaField.name
  · simp [hm, (schemaLookup_isSome schema n).mpr hm]
  · cases hs : (schemaLookup schema n).isSome
    · simp [hm]
    · exact absurd ((schemaLookup_isSome schema n).mp hs) hm

/-- A successful schema lookup returns the type of one of the schema
fields bearing the looked-up name. -/
theorem schemaLookup_mem (schema : List SchemaField) (n : String) (t : String)
    (h : schemaLookup schema n = some t) :
    ∃ f ∈ schema, f.name = n ∧ f.type = t := by
  induction schema with
  | nil => cases h
  | cons f rest ih =>
    simp only [schemaLookup] at h
    cases hr : schemaLookup rest n with
    | some u =>
      rw [hr] at h
      obtain ⟨g, hg, hgn, hgt⟩ := ih (hr.trans (by cases h; rfl))
      exact ⟨g, List.mem_cons_of_mem f hg, hgn, hgt⟩
    | none =>
      rw [hr] at h
      by_cases hf : f.name = n
      · rw [if_pos hf] at h
        cases h
        exact ⟨f, List.mem_cons_self f rest, hf, rfl⟩
      · rw [if_neg hf] at h
        cases h

/-- Restricting a column list and reading the names commutes with
reading the names and restricting. -/
theorem map_fst_filter (df : DataFrame) (p : String → Bool) :
    (df.filter (fun c => p c.1)).map Prod.fst = (df.map Prod.fst).filter p := by
  induction df with
  | nil => rfl
  | cons c rest ih =>
    by_cases hc : p c.1 <;> simp [List.filter_cons, hc, ih]

/-- Restriction instance used by prepare_dataframe: names of the
restricted columns are the restriction of the names. -/
theorem map_fst_filter_lookup (schema : List SchemaField) (df : DataFrame) :
    (df.filter (fun c => (schemaLookup schema c.1).isSome)).map Prod.fst
      = (df.map Prod.fst).filter (fun nm => (schemaLookup schema nm).isSome) := by
  induction df with
  | nil => rfl
  | cons c rest ih =>
    by_cases hc : (schemaLookup schema c.1).isSome = true <;>
      simp [List.filter_cons, hc, ih]

/-- A successfully conformed column keeps its name. -/
theorem conformColumn_fst (schema : List SchemaField) (c c2 : String × List Value)
    (h : conformColumn schema c = .ok c2) : c2.1 = c.1 := by
  cases hl : schemaLookup schema c.1 with
  | some t =>
    simp only [conformColumn, hl] at h
    cases hc : cast_column c.2 t with
    | error e => rw [hc] at h; cases h
    | ok vs => rw [hc] at h; cases h; rfl
  | none => simp only [conformColumn, hl] at h; cases h; rfl

/-- Shape of a successful single-column conformance: either the name
is in the schema and the values were cast with the looked-up type, or
the name is absent and the column is unchanged. -/
theorem conformColumn_ok (schema : List SchemaField) (c c2 : String × List Value)
    (h : conformColumn schema c = .ok c2) :
    c2.1 = c.1 ∧
      ((∃ t, schemaLookup schema c.1 = some t ∧ cast_column c.2 t = .ok c2.2) ∨
        (schemaLookup schema c.1 = none ∧ c2 = c)) := by
  refine ⟨conformColumn_fst schema c c2 h, ?_⟩
  cases hl : schemaLookup schema c.1 with
  | some t =>
    simp only [conformColumn, hl] at h
    cases hc : cast_column c.2 t with
    | error e => rw [hc] at h; cases h
    | ok vs => rw [hc] at h; cases h; exact Or.inl ⟨t, rfl, hc⟩
  | none => simp only [conformColumn, hl] at h; cases h; exact Or.inr ⟨rfl, rfl⟩

/-- A successful column pass keeps the column names, in order. -/
theorem conformColumns_map_fst (schema : List SchemaField) (l out : DataFrame)
    (h : conformColumns schema l = .ok out) :
    out.map Prod.fst = l.map Prod.fst := by
  induction l generalizing out with
  | nil => cases h; rfl
  | cons c rest ih =>
    simp only [conformColumns] at h
    cases h1 : conformColumn schema c with
    | error e => rw [h1] at h; cases h
    | ok c2 =>
      cases h2 : conformColumns schema rest with
      | error e => rw [h1, h2] at h; cases h
      | ok rest2 =>
        rw [h1, h2] at h
        cases h
        simp [ih rest2 h2, conformColumn_fst schema c c2 h1]

/-- Every input column of a successful column pass yields an output
column through conformColumn. -/
theorem conformColumns_mem (schema : List SchemaField) (l out : DataFrame)
    (h : conformColumns schema l = .ok out) (c : String × List Value) (hc : c ∈ l) :
    ∃ c2 ∈ out, conformColumn schema c = .ok c2 := by
  induction l generalizing out with
  | nil => cases hc
  | cons d rest ih =>
    simp only [conformColumns] at h
    cases h1 : conformColumn schema d with
    | error e => rw [h1] at h; cases h
    | ok d2 =>
      cases h2 : conformColumns schema rest with
      | error e => rw [h1, h2] at h; cases h
      | ok rest2 =>
        rw [h1, h2] at h
        cases h
        rcases List.mem_cons.mp hc with hcd | hcr
        · exact ⟨d2, List.mem_cons_self d2 rest2, hcd ▸ h1⟩
        · obtain ⟨c2, hc2, hcc⟩ := ih rest2 h2 hcr
          exact ⟨c2, List.mem_cons_of_mem d2 hc2, hcc⟩

/-- Every output column of a successful column pass comes from an
input column through conformColumn. -/
theorem conformColumns_mem_rev (schema : List SchemaField) (l out : DataFrame)
    (h : conformColumns schema l = .ok out) (c2 : String × List Value) (hc2 : c2 ∈ out) :
    ∃ c ∈ l, conformColumn schema c = .ok c2 := by
  induction l generalizing out with
  | nil => cases h; cases hc2
  | cons d rest ih =>
    simp only [conformColumns] at h
    cases h1 : conformColumn schema d with
    | error e => rw [h1] at h; cases h
    | ok d2 =>
      cases h2 : conformColumns schema rest with
      | error e => rw [h1, h2] at h; cases h
      | ok rest2 =>
        rw [h1, h2] at h
        cases h
        rcases List.mem_cons.mp hc2 with hcd | hcr
        · exact ⟨d, List.mem_cons_self d rest, hcd ▸ h1⟩
        · obtain ⟨c, hc, hcc⟩ := ih rest2 h2 hcr
          exact ⟨c, List.mem_cons_of_mem d hc, hcc⟩

/-- The column pass succeeds when every single-column conformance
succeeds. -/
theorem conformColumns_isOk (schema : List SchemaField) (l : DataFrame)
    (h : ∀ c ∈ l, (conformColumn schema c).isOk = true) :
    (conformColumns schema l).isOk = true := by
  induction l with
  | nil => rfl
  | cons c rest ih =>
    simp only [conformColumns]
    have hc := h c (List.mem_cons_self c rest)
    cases h1 : conformColumn schema c with
    | error e => rw [h1] at hc; cases hc
    | ok c2 =>
      have hrest := ih (fun d hd => h d (List.mem_cons_of_mem c hd))
      cases h2 : conformColumns schema rest with
      | error e => rw [h2] at hrest; cases hrest
      | ok rest2 => rfl

/-- The column pass is the identity when every single-column
conformance returns its input unchanged. -/
theorem conformColumns_id (schema : List SchemaField) (l : DataFrame)
    (h : ∀ c ∈ l, conformColumn schema c = .ok c) :
    conformColumns schema l = .ok l := by
  induction l with
  | nil => rfl
  | cons c rest ih =>
    have hc := h c (List.mem_cons_self c rest)
    have hrest := ih (fun d hd => h d (List.mem_cons_of_mem c hd))
    simp only [conformColumns, hc, hrest]

/-- Branch equation: the INTEGER cast. -/
theorem cast_column_integer (column : List Value) :
    cast_column column "INTEGER" = castInts column := rfl

/-- Branch equation: the FLOAT cast never fails. -/
theorem cast_column_float (column : List Value) :
    cast_column column "FLOAT" = .ok (column.map (fun v => astypeFloat (to_numeric v))) := rfl

/-- Branch equation: the STRING cast never fails. -/
theorem cast_column_string (column : List Value) :
    cast_column column "STRING" = .ok (column.map astypeStr) := rfl

/-- Branch equation: the BOOLEAN cast never fails. -/
theorem cast_column_boolean (column : List Value) :
    cast_column column "BOOLEAN" = .ok (column.map (fun v => Value.vBool (truthy v))) := rfl

/-- Branch equation: the TIMESTAMP cast never fails. -/
theorem cast_column_timestamp (column : List Value) :
    cast_column column "TIMESTAMP" = .ok (column.map to_datetime) := rfl

/-- A successful INTEGER column cast preserves the value count. -/
theorem castInts_length (l out : List Value) (h : castInts l = .ok out) :
    out.length = l.length := by
  induction l generalizing out with
  | nil => cases h; rfl
  | cons v vs ih =>
    simp only [castInts] at h
    cases h1 : astypeInt64 (to_numeric v) with
    | error e => rw [h1] at h; cases h
    | ok w =>
      cases h2 : castInts vs with
      | error e => rw [h1, h2] at h; cases h
      | ok ws =>
        rw [h1, h2] at h
        cases h
        simp [ih ws h2]

/-- Pointwise reading of a successful INTEGER column cast. -/
theorem castInts_get (l out : List Value) (h : castInts l = .ok out)
    (i : Nat) (hi : i < l.length) (hi2 : i < out.length) :
    astypeInt64 (to_numeric l[i]) = .ok out[i] := by
  induction l generalizing out i with
  | nil => cases hi
  | cons v vs ih =>
    simp only [castInts] at h
    cases h1 : astypeInt64 (to_numeric v) with
    | error e => rw [h1] at h; cases h
    | ok w =>
      cases h2 : castInts vs with
      | error e => rw [h1, h2] at h; cases h
      | ok ws =>
        rw [h1, h2] at h
        cases h
        cases i with
        | zero => simpa using h1
        | succ j =>
          have hj : j < vs.length := Nat.lt_of_succ_lt_succ hi
          have hj2 : j < ws.length := Nat.lt_of_succ_lt_succ hi2
          simpa using ih ws h2 j hj hj2

/-- Every value of a successful INTEGER column cast is the cast of
some input value. -/
theorem castInts_mem_rev (l out : List Value) (h : castInts l = .ok out)
    (w : Value) (hw : w ∈ out) :
    ∃ v ∈ l, astypeInt64 (to_numeric v) = .ok w := by
  induction l generalizing out with
  | nil => cases h; cases hw
  | cons v vs ih =>
    simp only [castInts] at h
    cases h1 : astypeInt64 (to_numeric v) with
    | error e => rw [h1] at h; cases h
    | ok u =>
      cases h2 : castInts vs with
      | error e => rw [h1, h2] at h; cases h
      | ok ws =>
        rw [h1, h2] at h
        cases h
        rcases List.mem_cons.mp hw with hwu | hwr
        · exact ⟨v, List.mem_cons_self v vs, hwu ▸ h1⟩
        · obtain ⟨x, hx, hxw⟩ := ih ws h2 hwr
          exact ⟨x, List.mem_cons_of_mem v hx, hxw⟩

/-- The INTEGER column cast succeeds when every per-value cast does. -/
theorem castInts_isOk (l : List Value)
    (h : ∀ v ∈ l, (astypeInt64 (to_numeric v)).isOk = true) :
    (castInts l).isOk = true := by
  induction l with
  | nil => rfl
  | cons v vs ih =>
    simp only [castInts]
    have hv := h v (List.mem_cons_self v vs)
    cases h1 : astypeInt64 (to_numeric v) with
    | error e => rw [h1] at hv; cases hv
    | ok w =>
      have hrest := ih (fun u hu => h u (List.mem_cons_of_mem v hu))
      cases h2 : castInts vs with
      | error e => rw [h2] at hrest; cases hrest
      | ok ws => rfl

/-- Shape of a successful per-value Int64 cast: the missing marker or
an in-range 64-bit integer. -/
theorem astypeInt64_ok (x w : Value) (h : astypeInt64 x = .ok w) :
    w = Value.vNone ∨ ∃ n : Int, w = Value.vInt n ∧ int64Min ≤ n ∧ n ≤ int64Max := by
  cases x with
  | vNone => cases h; exact Or.inl rfl
  | vNaN => cases h; exact Or.inl rfl
  | vNaT => cases h
  | vInt n =>
    simp only [astypeInt64] at h
    by_cases hr : int64Min ≤ n ∧ n ≤ int64Max
    · rw [if_pos hr] at h; cases h; exact Or.inr ⟨n, rfl, hr.1, hr.2⟩
    · rw [if_neg hr] at h; cases h
  | vFloat q =>
    simp only [astypeInt64] at h
    by_cases hr : q.den = 1 ∧ int64Min ≤ q.num ∧ q.num ≤ int64Max
    · rw [if_pos hr] at h; cases h; exact Or.inr ⟨q.num, rfl, hr.2.1, hr.2.2⟩
    · rw [if_neg hr] at h; cases h
  | vBool b =>
    cases h
    refine Or.inr ⟨if b then 1 else 0, rfl, ?_, ?_⟩ <;> cases b <;> decide
  | vStr s => cases h
  | vTime t => cases h

/-- A successful column cast preserves the value count, for every
type tag. -/
theorem cast_column_length (l out : List Value) (t : String)
    (h : cast_column l t = .ok out) : out.length = l.length := by
  by_cases h1 : t = "INTEGER"
  · subst h1; exact castInts_length l out h
  by_cases h2 : t = "FLOAT"
  · subst h2; cases h; simp
  by_cases h3 : t = "STRING"
  · subst h3; cases h; simp
  by_cases h4 : t = "BOOLEAN"
  · subst h4; cases h; simp
  by_cases h5 : t = "TIMESTAMP"
  · subst h5; cases h; simp
  · simp only [cast_column, if_neg h1, if_neg h2, if_neg h3, if_neg h4, if_neg h5] at h
    cases h; rfl

/-- The str() rendering is idempotent per value. -/
theorem astypeStr_idem (v : Value) : astypeStr (astypeStr v) = astypeStr v := by
  cases v <;> rfl

/-- The truthiness cast is idempotent per value. -/
theorem truthy_idem (v : Value) :
    Value.vBool (truthy (Value.vBool (truthy v))) = Value.vBool (truthy v) := by
  cases v <;> rfl

/-- The coercing timestamp parse is idempotent per value. -/
theorem to_datetime_idem (v : Value) : to_datetime (to_datetime v) = to_datetime v := by
  cases v with
  | vStr s =>
    simp only [to_datetime]
    cases hp : parseDate s <;> rfl
  | _ => rfl

/-- Stability: a STRING, BOOLEAN or TIMESTAMP column cast maps its
own output to itself. -/
theorem cast_column_stable (l out : List Value) (t : String)
    (ht : t = "STRING" ∨ t = "BOOLEAN" ∨ t = "TIMESTAMP")
    (h : cast_column l t = .ok out) : cast_column out t = .ok out := by
  rcases ht with h3 | h4 | h5
  · subst h3
    cases h
    rw [cast_column_string, List.map_map]
    exact congrArg Except.ok (List.map_congr_left (fun v _ => astypeStr_idem v))
  · subst h4
    cases h
    rw [cast_column_boolean, List.map_map]
    exact congrArg Except.ok (List.map_congr_left (fun v _ => truthy_idem v))
  · subst h5
    cases h
    rw [cast_column_timestamp, List.map_map]
    exact congrArg Except.ok (List.map_congr_left (fun v _ => to_datetime_idem v))

/-! Claims. -/

/-- C1: for every table and schema, the column list of the conformed
table is exactly the list of input columns whose names the schema
mentions, in the original input column order; schema fields absent
from the input are not synthesized as null columns, and input
columns absent from the schema are dropped. -/
theorem C1_conform_column_set (df : DataFrame) (schema : List SchemaField) (out : DataFrame)
    (h : prepare_dataframe df schema = .ok out) :
    out.map Prod.fst =
      (df.map Prod.fst).filter (fun nm => decide (nm ∈ schema.map SchemaField.name)) := by
  rw [conformColumns_map_fst schema _ out h, map_fst_filter_lookup]
  exact List.filter_congr (fun nm _ => schemaLookup_isSome_eq schema nm)

/-- Witness for C1 at the worked example of the design document. -/
theorem C1_conform_column_set_witness :
    outEx.map Prod.fst =
      (dfEx.map Prod.fst).filter (fun nm => decide (nm ∈ schemaEx.map SchemaField.name)) :=
  C1_conform_column_set dfEx schemaEx outEx (by rfl)

/-- C2 as stated is false on the code: the INTEGER cast raises when a
cell parses to a non-integral number, because the nullable Int64
conversion refuses a lossy cast, even though the same pipeline
succeeds on the same cell holding an integral numeric string. -/
theorem C2_counterexample :
    (prepare_dataframe [("a", [Value.vStr "1.5"])] [⟨"a", "INTEGER", none⟩]).isOk = false ∧
    (prepare_dataframe [("a", [Value.vStr "1"])] [⟨"a", "INTEGER", none⟩]).isOk = true := by
  exact ⟨rfl, rfl⟩

/-- C2 amended: conformance never raises provided every cell of every
retained INTEGER-typed column coerces to null or a losslessly
castable in-range number; per-value parse failures degrade to a
null/missing marker (NA for INTEGER, NaN for FLOAT, NaT for
TIMESTAMP) rather than raising, and the STRING and BOOLEAN casts are
total. -/
theorem C2_amended_no_raise (df : DataFrame) (schema : List SchemaField)
    (hsafe : ∀ p ∈ df, schemaLookup schema p.1 = some "INTEGER" →
      ∀ v ∈ p.2, (astypeInt64 (to_numeric v)).isOk = true) :
    (prepare_dataframe df schema).isOk = true ∧
    (∀ s : String, parseNumeric s = none →
      astypeInt64 (to_numeric (Value.vStr s)) = .ok Value.vNone ∧
      astypeFloat (to_numeric (Value.vStr s)) = Value.vNaN) ∧
    (∀ s : String, parseDate s = none → to_datetime (Value.vStr s) = Value.vNaT) := by
  refine ⟨?_, ?_, ?_⟩
  · apply conformColumns_isOk
    intro c hc
    have hcdf : c ∈ df := (List.mem_filter.mp hc).1
    cases hl : schemaLookup schema c.1 with
    | none => simp only [conformColumn, hl]; rfl
    | some t =>
      simp only [conformColumn, hl]
      by_cases hti : t = "INTEGER"
      · subst hti
        rw [cast_column_integer]
        have hok := castInts_isOk c.2 (fun v hv => hsafe c hcdf hl v hv)
        cases hc2 : castInts c.2 with
        | error e => rw [hc2] at hok; cases hok
        | ok ws => rfl
      · by_cases h2 : t = "FLOAT"
        · subst h2; rw [cast_column_float]; rfl
        by_cases h3 : t = "STRING"
        · subst h3; rw [cast_column_string]; rfl
        by_cases h4 : t = "BOOLEAN"
        · subst h4; rw [cast_column_boolean]; rfl
        by_cases h5 : t = "TIMESTAMP"
        · subst h5; rw [cast_column_timestamp]; rfl
        · simp only [cast_column, if_neg hti, if_neg h2, if_neg h3, if_neg h4, if_neg h5]
          rfl
  · intro s hp
    constructor <;> simp [to_numeric, hp, astypeInt64, astypeFloat]
  · intro s hp
    simp [to_datetime, hp]

/-- Witness for the amended C2 at the worked example. -/
theorem C2_amended_no_raise_witness :
    (prepare_dataframe dfEx schemaEx).isOk = true ∧
    (∀ s : String, parseNumeric s = none →
      astypeInt64 (to_numeric (Value.vStr s)) = .ok Value.vNone ∧
      astypeFloat (to_numeric (Value.vStr s)) = Value.vNaN) ∧
    (∀ s : String, parseDate s = none → to_datetime (Value.vStr s) = Value.vNaT) :=
  C2_amended_no_raise dfEx schemaEx (by decide)

/-- C3: the BOOLEAN cast coerces every value by truthiness with no
failure path, and any non-empty string, in particular "False",
coerces to true. -/
theorem C3_boolean_truthiness (col : List Value) :
    cast_column col "BOOLEAN" = .ok (col.map (fun v => Value.vBool (truthy v))) ∧
    ∀ s : String, s ≠ "" → truthy (Value.vStr s) = true := by
  refine ⟨rfl, ?_⟩
  intro s hs
  simp [truthy, hs]

/-- Witness for C3 at the string "False". -/
theorem C3_boolean_truthiness_witness :
    cast_column [Value.vStr "False"] "BOOLEAN" = .ok [Value.vBool true] ∧
    truthy (Value.vStr "False") = true :=
  ⟨(C3_boolean_truthiness [Value.vStr "False"]).1,
    (C3_boolean_truthiness [Value.vStr "False"]).2 "False" (by decide)⟩

/-- C4: in a conformed table, a retained column of schema type
INTEGER appears with every valid numeric string of integral value
replaced by the parsed integer, and every output value of the column
is the missing marker or an in-range signed 64-bit integer (the
nullable Int64 column). -/
theorem C4_integer_parse (df : DataFrame) (schema : List SchemaField) (out : DataFrame)
    (nm : String) (vs : List Value)
    (h : prepare_dataframe df schema = .ok out)
    (hmem : (nm, vs) ∈ df)
    (ht : schemaLookup schema nm = some "INTEGER") :
    ∃ outvs : List Value, (nm, outvs) ∈ out ∧ outvs.length = vs.length ∧
      (∀ (i : Nat) (hi : i < vs.length) (hi2 : i < outvs.length) (s : String) (n : Int),
        vs[i] = Value.vStr s → parseNumeric s = some (n : Rat) →
        outvs[i] = Value.vInt n) ∧
      (∀ w ∈ outvs, w = Value.vNone ∨
        ∃ n : Int, w = Value.vInt n ∧ int64Min ≤ n ∧ n ≤ int64Max) := by
  have hkeep : (nm, vs) ∈ df.filter (fun c => (schemaLookup schema c.1).isSome) :=
    List.mem_filter.mpr ⟨hmem, by simp [ht]⟩
  obtain ⟨c2, hc2out, hcc⟩ := conformColumns_mem schema _ out h _ hkeep
  obtain ⟨hfst, hcase⟩ := conformColumn_ok schema _ c2 hcc
  rcases hcase with ⟨t, hlt, hcast⟩ | ⟨hnone, _⟩
  · have h0 : schemaLookup schema nm = some t := hlt
    rw [ht] at h0
    have hti : t = "INTEGER" := (Option.some.inj h0).symm
    subst hti
    rw [cast_column_integer] at hcast
    have hfst2 : c2.1 = nm := hfst
    have hc2eq : c2 = (nm, c2.2) := by
      rw [← hfst2]
    refine ⟨c2.2, by rw [← hc2eq]; exact hc2out, castInts_length vs c2.2 hcast, ?_, ?_⟩
    · intro i hi hi2 s n hv hp
      have hg := castInts_get vs c2.2 hcast i hi hi2
      rw [hv] at hg
      have h2 : to_numeric (Value.vStr s) = Value.vInt n := by
        simp [to_numeric, hp]
      rw [h2] at hg
      simp only [astypeInt64] at hg
      by_cases hrange : int64Min ≤ n ∧ n ≤ int64Max
      · rw [if_pos hrange] at hg
        injection hg with hg2
        exact hg2.symm
      · rw [if_neg hrange] at hg
        cases hg
    · intro w hw
      obtain ⟨v, hv, hvw⟩ := castInts_mem_rev vs c2.2 hcast w hw
      exact astypeInt64_ok _ w hvw
  · have h0 : schemaLookup schema nm = none := hnone
    rw [ht] at h0
    cases h0

/-- Witness for C4 at the worked example. -/
theorem C4_integer_parse_witness :
    ∃ outvs : List Value, ("id", outvs) ∈ outEx ∧
      outvs.length = [Value.vStr "1", Value.vStr "x", Value.vStr "3"].length ∧
      (∀ (i : Nat) (hi : i < [Value.vStr "1", Value.vStr "x", Value.vStr "3"].length)
        (hi2 : i < outvs.length) (s : String) (n : Int),
        [Value.vStr "1", Value.vStr "x", Value.vStr "3"][i] = Value.vStr s →
        parseNumeric s = some (n : Rat) → outvs[i] = Value.vInt n) ∧
      (∀ w ∈ outvs, w = Value.vNone ∨
        ∃ n : Int, w = Value.vInt n ∧ int64Min ≤ n ∧ n ≤ int64Max) :=
  C4_integer_parse dfEx schemaEx outEx "id" [Value.vStr "1", Value.vStr "x", Value.vStr "3"]
    (by rfl) (by decide) (by rfl)

/-- C5: a cell holding a non-numeric string in a column cast as
INTEGER or FLOAT becomes a null/missing marker; the per-value cast of
that cell itself never fails. -/
theorem C5_nonnumeric_null (col : List Value) (i : Nat) (hi : i < col.length) (s : String)
    (hv : col[i] = Value.vStr s) (hp : parseNumeric s = none) :
    (astypeInt64 (to_numeric (Value.vStr s))).isOk = true ∧
    (∀ out, cast_column col "INTEGER" = .ok out →
      ∀ hi2 : i < out.length, isNull out[i] = true) ∧
    (∀ out, cast_column col "FLOAT" = .ok out →
      ∀ hi2 : i < out.length, isNull out[i] = true) := by
  have h2 : to_numeric (Value.vStr s) = Value.vNaN := by
    simp [to_numeric, hp]
  refine ⟨by rw [h2]; rfl, ?_, ?_⟩
  · intro out hok hi2
    rw [cast_column_integer] at hok
    have hg := castInts_get col out hok i hi hi2
    rw [hv, h2] at hg
    have h3 : astypeInt64 Value.vNaN = .ok Value.vNone := rfl
    rw [h3] at hg
    injection hg with hg2
    rw [← hg2]
    rfl
  · intro out hok hi2
    cases hok
    simp only [List.getElem_map]
    rw [hv, h2]
    rfl

/-- Witness for C5 at a one-cell column holding the string x. -/
theorem C5_nonnumeric_null_witness :
    (astypeInt64 (to_numeric (Value.vStr "x"))).isOk = true ∧
    (∀ out, cast_column [Value.vStr "x"] "INTEGER" = .ok out →
      ∀ hi2 : 0 < out.length, isNull out[0] = true) ∧
    (∀ out, cast_column [Value.vStr "x"] "FLOAT" = .ok out →
      ∀ hi2 : 0 < out.length, isNull out[0] = true) :=
  C5_nonnumeric_null [Value.vStr "x"] 0 (by decide) "x" (by rfl) (by rfl)

/-- C6: the STRING cast converts every input value, null markers
included, to its textual representation, so the output column never
contains a null/missing marker. -/
theorem C6_string_never_null (col out : List Value) (h : cast_column col "STRING" = .ok out) :
    ∀ w ∈ out, (∃ s : String, w = Value.vStr s) ∧ isNull w = false := by
  cases h
  intro w hw
  obtain ⟨v, hv, hvw⟩ := List.mem_map.mp hw
  subst hvw
  cases v <;> exact ⟨⟨_, rfl⟩, rfl⟩

/-- Witness for C6 at the rendering of a NaN input cell. -/
theorem C6_string_never_null_witness :
    (∃ s : String, Value.vStr "nan" = Value.vStr s) ∧ isNull (Value.vStr "nan") = false :=
  C6_string_never_null [Value.vNone, Value.vNaN] [Value.vStr "None", Value.vStr "nan"]
    (by rfl) (Value.vStr "nan") (by decide)

/-- C7: conformance is idempotent for a schema whose field types are
stable under re-application: STRING, BOOLEAN (an already-boolean
column re-coerces to itself) and TIMESTAMP (an already-parsed
timestamp column re-parses to itself). -/
theorem C7_conform_idempotent (df : DataFrame) (schema : List SchemaField)
    (hstable : ∀ f ∈ schema, f.type = "STRING" ∨ f.type = "BOOLEAN" ∨ f.type = "TIMESTAMP") :
    Except.bind (prepare_dataframe df schema) (fun u => prepare_dataframe u schema) =
      prepare_dataframe df schema := by
  cases h : prepare_dataframe df schema with
  | error e => rfl
  | ok out =>
    have hcols : ∀ c2 ∈ out,
        conformColumn schema c2 = .ok c2 ∧ (schemaLookup schema c2.1).isSome = true := by
      intro c2 hc2
      obtain ⟨c, hcl, hcc⟩ := conformColumns_mem_rev schema _ out h c2 hc2
      have hfilter := (List.mem_filter.mp hcl).2
      obtain ⟨hfst, hcase⟩ := conformColumn_ok schema c c2 hcc
      rcases hcase with ⟨t, hlt, hcast⟩ | ⟨hnone, _⟩
      · obtain ⟨f, hf, hfname, hftype⟩ := schemaLookup_mem schema c.1 t hlt
        have ht3 : t = "STRING" ∨ t = "BOOLEAN" ∨ t = "TIMESTAMP" := by
          have h4 := hstable f hf
          rw [hftype] at h4
          exact h4
        have hstab := cast_column_stable c.2 c2.2 t ht3 hcast
        have hl2 : schemaLookup schema c2.1 = some t := by rw [hfst]; exact hlt
        refine ⟨?_, by rw [hl2]; rfl⟩
        simp only [conformColumn, hl2, hstab]
        simp [Except.map]
      · rw [hnone] at hfilter
        cases hfilter
    have hfeq : out.filter (fun c => (schemaLookup schema c.1).isSome) = out :=
      List.filter_eq_self.mpr (fun c2 hc2 => (hcols c2 hc2).2)
    show prepare_dataframe out schema = Except.ok out
    unfold prepare_dataframe
    rw [hfeq]
    exact conformColumns_id schema out (fun c2 hc2 => (hcols c2 hc2).1)

/-- Witness for C7 at a table of varied raw values under an
all-stable schema. -/
theorem C7_conform_idempotent_witness :
    Except.bind (prepare_dataframe dfStable schemaStable)
        (fun u => prepare_dataframe u schemaStable) =
      prepare_dataframe dfStable schemaStable :=
  C7_conform_idempotent dfStable schemaStable (by decide)

/-- C8: a column whose schema type tag is none of the five known tags
is passed through unchanged. -/
theorem C8_unknown_tag_identity (col : List Value) (t : String)
    (h1 : ¬ t = "INTEGER") (h2 : ¬ t = "FLOAT") (h3 : ¬ t = "STRING")
    (h4 : ¬ t = "BOOLEAN") (h5 : ¬ t = "TIMESTAMP") :
    cast_column col t = .ok col := by
  simp only [cast_column, if_neg h1, if_neg h2, if_neg h3, if_neg h4, if_neg h5]

/-- Witness for C8 at the tag RECORD over a mixed column. -/
theorem C8_unknown_tag_identity_witness :
    cast_column [Value.vStr "x", Value.vNone, Value.vInt 3] "RECORD" =
      .ok [Value.vStr "x", Value.vNone, Value.vInt 3] :=
  C8_unknown_tag_identity [Value.vStr "x", Value.vNone, Value.vInt 3] "RECORD"
    (by decide) (by decide) (by decide) (by decide) (by decide)

/-- C9: credential resolution accepts exactly the three input shapes:
a path string resolves through the service-account file constructor,
a mapping through the service-account info constructor, a resolved
credential object is returned unchanged, and a value of any other
runtime type is rejected with the caller error, never yielding a
credential. -/
theorem C9_credentials_shapes :
    (∀ s : String, get_credentials (CredInput.str s) =
      .ok (Credentials.from_service_account_file s bigqueryScopes)) ∧
    (∀ d : List (String × String), get_credentials (CredInput.dict d) =
      .ok (Credentials.from_service_account_info d bigqueryScopes)) ∧
    (∀ c : Credentials, get_credentials (CredInput.credsObj c) = .ok c) ∧
    (∀ tn : String, get_credentials (CredInput.otherObj tn) =
      .error "Invalid credentials type. Must be a file path, dict, or Credentials object.") :=
  ⟨fun _ => rfl, fun _ => rfl, fun _ => rfl, fun _ => rfl⟩

/-- C10: conformance preserves the row count: when every input column
has r values, every column of the conformed table has r values. -/
theorem C10_row_count (df : DataFrame) (schema : List SchemaField) (out : DataFrame) (r : Nat)
    (h : prepare_dataframe df schema = .ok out)
    (hr : ∀ p ∈ df, p.2.length = r) :
    ∀ q ∈ out, q.2.length = r := by
  intro q hq
  obtain ⟨c, hcl, hcc⟩ := conformColumns_mem_rev schema _ out h q hq
  have hcdf : c ∈ df := (List.mem_filter.mp hcl).1
  obtain ⟨hfst, hcase⟩ := conformColumn_ok schema c q hcc
  rcases hcase with ⟨t, hlt, hcast⟩ | ⟨hnone, hqc⟩
  · rw [cast_column_length c.2 q.2 t hcast]
    exact hr c hcdf
  · rw [hqc]
    exact hr c hcdf

/-- Witness for C10 at the id column of the worked example, three
rows in and three values out. -/
theorem C10_row_count_witness :
    (("id", [Value.vInt 1, Value.vNone, Value.vInt 3]) : String × List Value).2.length = 3 :=
  C10_row_count dfEx schemaEx outEx 3 (by rfl) (by decide)
    ("id", [Value.vInt 1, Value.vNone, Value.vInt 3]) (by decide)

end BigQueryHelper
